import Mathlib

/-!
# Verification of the manuarte-app-backend transactional order/inventory workflow

Shallow embedding of the quote/billing services (`src/modules/quote/service.ts`,
`BillingItemService`, `src/modules/user/service.ts`) together with the
collaborator services they call.  Database state is explicit; a sequelize
transaction is modelled by threading a working copy of the state and committing
it only when the source commits — a rollback discards the working copy and
leaves the committed state untouched.  Collaborator failures (constraint
violations, connection errors) are injected through an `Env` record, mirroring
the fact that any awaited store call in the source can reject.
-/

namespace Manuarte

/-- A JS `Error` as the services see it: a message plus the optional
`parent.code` that sequelize attaches to database errors (`'23505'` is
PostgreSQL's unique-constraint violation). -/
structure Err where
  message : String
  parentCode : Option String := none
deriving DecidableEq, Repr

/-- `discountType` enumeration used by quotes and billings. -/
inductive DiscountType
  | PERCENTAGE
  | FIXED
deriving DecidableEq, Repr

/-- Row of the `shop` table, restricted to the attributes the quote
workflow reads (`ShopModel.findOne({ attributes: ['id', 'currency'] })`). -/
structure Shop where
  id : String
  slug : String
  currency : String
deriving DecidableEq, Repr

/-- Row of the `customer` table (with its owned person inlined: the quote
workflow only ever touches the customer through `fullName`/`personId`). -/
structure Customer where
  id : String
  personId : String
  fullName : String
deriving DecidableEq, Repr

/-- Row of the `quote` table as built by `QuoteService.create`. -/
structure Quote where
  id : String
  customerId : Option String
  shopId : String
  status : String
  currency : String
  discountType : Option DiscountType
  discount : Int
  shipping : Int
  serialNumber : String
  createdBy : String
deriving DecidableEq, Repr

/-- Row of the `quoteItem` table as persisted by `QuoteItemService.create`. -/
structure QuoteItem where
  id : String
  quoteId : String
  productVariantId : String
  name : String
  quantity : Int
  price : Int
  totalPrice : Int
deriving DecidableEq, Repr

/-- Committed database state for the quote workflow.  `nextId` feeds the
UUID generator (fresh ids are `"id" ++ repr nextId`). -/
structure DB where
  shops : List Shop
  customers : List Customer
  quotes : List Quote
  quoteItems : List QuoteItem
  nextId : Nat
deriving DecidableEq, Repr

/-- A fresh row id, standing in for `DataTypes.UUIDV4`. -/
def freshId (db : DB) : String := "id" ++ Nat.repr db.nextId

/-- One entry of `quoteData.items` (`CreateQuoteItemDto`). -/
structure ItemDto where
  productVariantId : String
  name : String
  quantity : Int
  price : Int
  totalPrice : Int
deriving DecidableEq, Repr

/-- `CreateQuoteDto` (src/modules/quote/types.ts). -/
structure CreateQuoteDto where
  items : List ItemDto
  status : String
  discountType : Option DiscountType
  discount : Int
  shipping : Int
  shopSlug : String
  requestedBy : String
deriving DecidableEq, Repr

/-- `CreateCustomerDto` as the quote workflow consumes it.  All three fields
are optional in the payload; `none` models JS `undefined`. -/
structure CreateCustomerDto where
  customerId : Option String
  fullName : Option String
  personId : Option String
deriving DecidableEq, Repr

/-- JS truthiness of an optional string: `undefined` and `""` are falsy. -/
def optTruthy : Option String → Bool
  | none => false
  | some s => s ≠ ""

/-- Fault injection for the awaited store calls inside the quote workflow.
`none` means the call resolves; `some e` means it rejects with `e`
(sequelize surfaces e.g. unique-constraint violations this way). -/
structure Env where
  customerCreateErr : Option Err := none
  customerUpdateErr : Option Err := none
  saveErr : Option Err := none
  itemFailAt : Option Nat := none
  itemErr : Err := ⟨"item error", none⟩
  quoteUpdateErr : Option Err := none
  updateItemsErr : Option Err := none
deriving DecidableEq, Repr

/-- Modelled from the spec: `CustomerService.create` (its source file is not
in the repository snapshot; only this caller is).  Per §6,
`create(data, unitOfWork) → {customer:{id,...}}`: it persists one new
customer row (with its owned person) inside the caller's transaction and
returns it.  A store rejection is injected via `env.customerCreateErr`. -/
def customerServiceCreate (env : Env) (data : CreateCustomerDto) (db : DB) :
    Except Err (Customer × DB) :=
  match env.customerCreateErr with
  | some e => .error e
  | none =>
    let cust : Customer :=
      { id := freshId db
        personId := "p" ++ Nat.repr db.nextId
        fullName := data.fullName.getD "" }
    .ok (cust, { db with customers := db.customers ++ [cust], nextId := db.nextId + 1 })

/-- Modelled from the spec: `CustomerService.update` (source file absent).
Per §6, `update(data, unitOfWork) → customerOrNull`: it updates the customer
owning the given person inside the caller's transaction, returning `none`
when no such customer exists.  A store rejection is injected via
`env.customerUpdateErr`. -/
def customerServiceUpdate (env : Env) (data : CreateCustomerDto) (db : DB) :
    Except Err (Option Customer × DB) :=
  match env.customerUpdateErr with
  | some e => .error e
  | none =>
    match db.customers.find? (fun c => c.personId = data.personId.getD "") with
    | none => .ok (none, db)
    | some c =>
      let c' := { c with fullName := data.fullName.getD c.fullName }
      .ok (some c',
        { db with customers := db.customers.map (fun x => if x.id = c.id then c' else x) })

/-- Modelled from the spec: `QuoteItemService.create` (source file absent).
Per §4.2 it persists one line item inside the caller's transaction; the quote
path never requests stock deduction, so no inventory call is made.  The
`idx`-th call of the creation loop rejects when `env.itemFailAt = some idx`. -/
def quoteItemServiceCreate (env : Env) (idx : Nat) (item : ItemDto)
    (quoteId : String) (db : DB) : Except Err DB :=
  if env.itemFailAt = some idx then .error env.itemErr
  else
    .ok { db with
      quoteItems := db.quoteItems ++
        [{ id := freshId db
           quoteId := quoteId
           productVariantId := item.productVariantId
           name := item.name
           quantity := item.quantity
           price := item.price
           totalPrice := item.totalPrice }]
      nextId := db.nextId + 1 }

/-- The `for (const item of quoteData.items)` loop of `QuoteService.create`,
persisting each line item in order within the transaction. -/
def insertItems (env : Env) (quoteId : String) :
    List ItemDto → Nat → DB → Except Err DB
  | [], _, db => .ok db
  | item :: rest, idx, db =>
    match quoteItemServiceCreate env idx item quoteId db with
    | .error e => .error e
    | .ok db' => insertItems env quoteId rest (idx + 1) db'

/-- Outcome of `QuoteService.create`: the `201` success object, the `400`
early return for a missing shop, or a thrown (and re-thrown after rollback)
error. -/
inductive CreateOutcome
  | created (id serialNumber : String) (status : String)
      (customerId : Option String) (customerName : Option String) (shopId : String)
  | badRequest (message : String)
  | thrown (e : Err)
deriving DecidableEq, Repr

/-- Customer resolution step of `QuoteService.create` (service.ts lines
192–201): new customer data without an id creates a customer; a person id
updates the existing customer (result discarded); otherwise the supplied
`customerId ?? null` is used as-is. -/
def resolveCustomer (env : Env) (customerData : CreateCustomerDto) (db : DB) :
    Except Err (Option String × DB) :=
  if optTruthy customerData.fullName ∧ ¬ optTruthy customerData.customerId then
    match customerServiceCreate env customerData db with
    | .error e => .error e
    | .ok (cust, db') => .ok (some cust.id, db')
  else if optTruthy customerData.personId then
    match customerServiceUpdate env customerData db with
    | .error e => .error e
    | .ok (_, db') => .ok (customerData.customerId, db')
  else
    .ok (customerData.customerId, db)

/-- The quote row built at service.ts lines 220–229: currency comes from the
shop, and the discount type is nulled whenever `discount > 0` fails. -/
def buildQuote (quoteData : CreateQuoteDto) (customerId : Option String)
    (shop : Shop) (db : DB) : Quote :=
  { id := freshId db
    customerId := customerId
    shopId := shop.id
    status := quoteData.status
    currency := shop.currency
    discountType := if quoteData.discount > 0 then quoteData.discountType else none
    discount := quoteData.discount
    shipping := quoteData.shipping
    serialNumber := "COT-" ++ Nat.repr db.nextId
    createdBy := quoteData.requestedBy }

/-- The `try` body of `QuoteService.create` (service.ts lines 184–258),
threading the transaction's working state.  The `.error` results are the
thrown exceptions the `catch` block will roll back and re-throw; the 400
shop-not-found `return` commits nothing, so it pairs with the original
committed state. -/
def createBody (env : Env) (quoteData : CreateQuoteDto)
    (customerData : CreateCustomerDto) (db0 : DB) :
    Except Err (CreateOutcome × DB) :=
  if quoteData.items.length = 0 then
    .error ⟨"Es necesario al menos 1 item para crear una cotización", none⟩
  else
    match resolveCustomer env customerData db0 with
    | .error e => .error e
    | .ok (customerId, db1) =>
      -- shop lookup (lines 212–218)
      match db1.shops.find? (fun s => s.slug = quoteData.shopSlug) with
      | none => .ok (.badRequest "Parece que la tienda no existe!", db0)
      | some shop =>
        -- build + save (lines 220–231)
        let newQuote := buildQuote quoteData customerId shop db1
        match env.saveErr with
        | some e => .error e
        | none =>
          let db2 := { db1 with quotes := db1.quotes ++ [newQuote], nextId := db1.nextId + 1 }
          match insertItems env newQuote.id quoteData.items 0 db2 with
          | .error e => .error e
          | .ok db3 =>
            .ok (.created newQuote.id newQuote.serialNumber quoteData.status
              customerId customerData.fullName shop.id, db3)

namespace QuoteService

/-- `QuoteService.create`: opens a transaction, runs the body, and on any
thrown error rolls back (the committed state is returned unchanged) and
re-throws.  Success commits the working state. -/
def create (env : Env) (quoteData : CreateQuoteDto)
    (customerData : CreateCustomerDto) (db : DB) : CreateOutcome × DB :=
  match createBody env quoteData customerData db with
  | .ok (o, db') => (o, db')
  | .error e => (.thrown e, db)

end QuoteService

/-- `UpdateQuoteDto` (extends `CreateQuoteDto` with `id`).  Header fields are
optional in the payload; `none` models JS `undefined`, which sequelize's
`Model.update` skips (the stored value is kept). -/
structure UpdateQuoteDto where
  id : String
  items : List ItemDto
  status : Option String
  currency : Option String
  discountType : Option DiscountType
  discount : Option Int
  shipping : Option Int
deriving DecidableEq, Repr

/-- Modelled from the spec: `QuoteItemService` row insertion used by
`updateItems` (source file absent): the replacement list is reinserted as new
rows. -/
def insertItemRows (quoteId : String) : List ItemDto → DB → DB
  | [], db => db
  | item :: rest, db =>
    insertItemRows quoteId rest
      { db with
        quoteItems := db.quoteItems ++
          [{ id := freshId db
             quoteId := quoteId
             productVariantId := item.productVariantId
             name := item.name
             quantity := item.quantity
             price := item.price
             totalPrice := item.totalPrice }]
        nextId := db.nextId + 1 }

/-- Modelled from the spec: `QuoteItemService.updateItems` (source file
absent).  Per §4.2 it replaces the full set of line items belonging to a
document: existing items for that document are removed and the provided list
is reinserted, inside the caller's transaction.  A store rejection is
injected via `env.updateItemsErr`. -/
def quoteItemServiceUpdateItems (env : Env) (items : List ItemDto)
    (quoteId : String) (db : DB) : Except Err DB :=
  match env.updateItemsErr with
  | some e => .error e
  | none =>
    .ok (insertItemRows quoteId items
      { db with quoteItems := db.quoteItems.filter (fun it => it.quoteId ≠ quoteId) })

/-- The field map of `quoteToUpdate.update({...})` (service.ts lines
293–305).  `undefined` values are skipped by sequelize, so `none` keeps the
stored field; `discount: quoteData?.discount || 0` always writes a number;
`discountType` is written `null` unless `quoteData?.discount > 0`, in which
case the supplied type is written (or skipped when itself `undefined`). -/
def applyQuoteUpdate (q : Quote) (quoteData : UpdateQuoteDto)
    (customerData : CreateCustomerDto) : Quote :=
  { q with
    customerId :=
      match customerData.customerId with
      | none => q.customerId
      | some cid => some cid
    status := (quoteData.status).getD q.status
    currency := (quoteData.currency).getD q.currency
    discountType :=
      if (quoteData.discount.getD 0) > 0 then
        match quoteData.discountType with
        | none => q.discountType
        | some t => some t
      else none
    discount := quoteData.discount.getD 0
    shipping := (quoteData.shipping).getD q.shipping }

/-- Outcome of `QuoteService.update`: the `200` success object or a thrown
(and re-thrown after rollback) error. -/
inductive UpdateOutcome
  | updated (id serialNumber : String) (status : Option String)
      (customerId : Option String) (customerName : Option String)
  | thrown (e : Err)
deriving DecidableEq, Repr

/-- The `try` body of `QuoteService.update` (service.ts lines 266–330):
optional customer update (throwing when the customer is missing), quote
lookup by primary key (throwing when absent), header update, then full item
replacement — but only when the replacement list is non-empty, else a
validation error is thrown after the header write (which the rollback will
undo). -/
def updateBody (env : Env) (quoteData : UpdateQuoteDto)
    (customerData : CreateCustomerDto) (db0 : DB) :
    Except Err (UpdateOutcome × DB) :=
  -- customer update (lines 275–284)
  match (if optTruthy customerData.personId then
          match customerServiceUpdate env customerData db0 with
          | .error e => .error e
          | .ok (customerInfo, db1) =>
            if customerInfo = none then
              .error (⟨"Cliente no encontrado", none⟩ : Err)
            else .ok db1
        else .ok db0 : Except Err DB) with
  | .error e => .error e
  | .ok db1 =>
    -- findByPk (lines 286–291)
    match db1.quotes.find? (fun qu => qu.id = quoteData.id) with
    | none => .error ⟨"Cotización no encontrada", none⟩
    | some quoteToUpdate =>
      -- header update (lines 293–305)
      match env.quoteUpdateErr with
      | some e => .error e
      | none =>
        let quote' := applyQuoteUpdate quoteToUpdate quoteData customerData
        let db2 := { db1 with
          quotes := db1.quotes.map (fun x => if x.id = quoteToUpdate.id then quote' else x) }
        -- item replacement (lines 307–315)
        if quoteData.items.length > 0 then
          match quoteItemServiceUpdateItems env quoteData.items quoteData.id db2 with
          | .error e => .error e
          | .ok db3 =>
            .ok (.updated quoteData.id quoteToUpdate.serialNumber quoteData.status
              customerData.customerId customerData.fullName, db3)
        else .error ⟨"La cotización debe tener al menos 1 item", none⟩

namespace QuoteService

/-- `QuoteService.update`: opens a transaction, runs the body, and on any
thrown error rolls back (the committed state is returned unchanged) and
re-throws.  Success commits the working state. -/
def update (env : Env) (quoteData : UpdateQuoteDto)
    (customerData : CreateCustomerDto) (db : DB) : UpdateOutcome × DB :=
  match updateBody env quoteData customerData db with
  | .ok (o, db') => (o, db')
  | .error e => (.thrown e, db)

end QuoteService

/-! ## User service (`src/modules/user/service.ts`) -/

/-- Row of the `person` table as `UserService.register` creates it. -/
structure Person where
  id : String
  fullName : String
  dni : String
deriving DecidableEq, Repr

/-- Row of the `user` table as `UserService.register` creates it. -/
structure UserRow where
  id : String
  personId : String
  email : String
  roleId : String
  shopId : String
deriving DecidableEq, Repr

/-- Committed database state for the user service. -/
structure UDB where
  persons : List Person
  users : List UserRow
  nextId : Nat
deriving DecidableEq, Repr

/-- `CreateUserDto`. -/
structure CreateUserDto where
  fullName : String
  dni : String
  roleId : String
  shopId : String
  email : String
  password : String
deriving DecidableEq, Repr

/-- Fault injection for the user service's store calls.  `roleName = none`
makes `getRoleName` throw its `'Rol no encontrado'` error. -/
structure UserEnv where
  personCreateErr : Option Err := none
  userCreateErr : Option Err := none
  roleName : Option String := some "admin"
  setExtraPermissionsErr : Option Err := none
deriving DecidableEq, Repr

/-- Outcome of `UserService.register`: the `201` success object or a thrown
(and re-thrown after rollback, possibly message-translated) error. -/
inductive RegisterOutcome
  | registered (userId personId : String) (message : String)
  | thrown (e : Err)
deriving DecidableEq, Repr

/-- The `try` body of `UserService.register` (service.ts lines 80–113):
create the person, create the user referencing it, resolve the role name,
commit.  (`sequelize` `create` resolves with the row, so the two
`if (!person)/if (!user)` 500-guards in the source are dead and elided.) -/
def registerBody (env : UserEnv) (userData : CreateUserDto) (db0 : UDB) :
    Except Err (RegisterOutcome × UDB) :=
  match env.personCreateErr with
  | some e => .error e
  | none =>
    let person : Person :=
      { id := "pe" ++ Nat.repr db0.nextId, fullName := userData.fullName, dni := userData.dni }
    let db1 := { db0 with persons := db0.persons ++ [person], nextId := db0.nextId + 1 }
    match env.userCreateErr with
    | some e => .error e
    | none =>
      let user : UserRow :=
        { id := "u" ++ Nat.repr db1.nextId
          personId := person.id
          email := userData.email
          roleId := userData.roleId
          shopId := userData.shopId }
      let db2 := { db1 with users := db1.users ++ [user], nextId := db1.nextId + 1 }
      match env.roleName with
      | none => .error ⟨"Rol no encontrado", none⟩
      | some _ =>
        .ok (.registered user.id person.id "Usuario registrado con éxito", db2)

/-- The `catch` translation of `UserService.register` (service.ts lines
117–123): a PostgreSQL unique-constraint violation (`parent.code ===
'23505'`) has its message replaced by the user-facing duplicate message;
every other error is left unchanged. -/
def translate23505 (e : Err) : Err :=
  if e.parentCode = some "23505" then
    { e with message := "Ya existe un usuario con este email o número de documento" }
  else e

namespace UserService

/-- `UserService.register`: transaction around the body; on error, rollback,
translate a unique-violation message, and re-throw. -/
def register (env : UserEnv) (userData : CreateUserDto) (db : UDB) :
    RegisterOutcome × UDB :=
  match registerBody env userData db with
  | .ok (r, db') => (r, db')
  | .error e => (.thrown (translate23505 e), db)

end UserService

/-- A `{status, message}` result object. -/
structure StatusResult where
  status : Nat
  message : String
deriving DecidableEq, Repr

/-- `SetPermissionsDto`. -/
structure SetPermissionsDto where
  userId : String
  extraPermissions : List String
deriving DecidableEq, Repr

namespace UserService

/-- `UserService.setPermissions` (service.ts lines 202–225): the only
operation whose `catch` does not re-throw — any failure (injected via
`env.setExtraPermissionsErr`) is converted into a `{status: 500}` result.
The return type has no error case: this operation never propagates. -/
def setPermissions (env : UserEnv) (dto : SetPermissionsDto) (db : UDB) :
    StatusResult :=
  match db.users.find? (fun u => u.id = dto.userId) with
  | none => ⟨404, "Usuario no encontrado"⟩
  | some _ =>
    match env.setExtraPermissionsErr with
    | some _ => ⟨500, "Error asignando permisos de usuario"⟩
    | none =>
      ⟨200,
        if dto.extraPermissions.length = 0 then "Permisos eliminados con éxito"
        else "Permisos actualizados con éxito"⟩

end UserService

/-! ## Billing items and the inventory ledger (`BillingItemService`,
`StockItemService`) -/

/-- Row of the `stockItem` table: quantity on hand for a product variant at
a stock location. -/
structure StockItem where
  id : String
  stockId : String
  productVariantId : String
  quantity : Int
deriving DecidableEq, Repr

/-- Row of the `billingItem` table. -/
structure BillingItemRow where
  id : String
  billingId : String
  productVariantId : String
  name : String
  quantity : Int
  price : Int
  totalPrice : Int
deriving DecidableEq, Repr

/-- `CreateBillingItemDto`: the payload handed to `BillingItemService.create`
and forwarded verbatim to `StockItemService.updateQuantity`. -/
structure CreateBillingItemDto where
  billingId : String
  productVariantId : String
  stockId : String
  name : String
  quantity : Int
  price : Int
  totalPrice : Int
deriving DecidableEq, Repr

/-- Committed database state for the billing-item workflow. -/
structure BDB where
  billingItems : List BillingItemRow
  stockItems : List StockItem
  nextId : Nat
deriving DecidableEq, Repr

/-- `StockOperation` (src/modules/stock-item/types.ts). -/
inductive StockOperation
  | SUBTRACT
  | ADD
deriving DecidableEq, Repr

/-- Modelled from the spec: `StockItemService.updateQuantity` (source file
absent; §4.1's Inventory Ledger `applyDelta`).  It looks up the stock-item
row for (variant, stock) — signalling `NotFound` when absent — applies the
signed quantity (negative for a sale/deduction, positive for a
cancellation/restock), and writes the new quantity inside the caller's unit
of work; a deduction may never drive the quantity negative (§3 invariant,
§8: the loser "observes NotFound/insufficient-stock failure"). -/
def stockItemUpdateQuantity (data : CreateBillingItemDto)
    (operation : StockOperation) (db : BDB) : Except Err BDB :=
  match db.stockItems.find?
      (fun si => si.productVariantId = data.productVariantId ∧ si.stockId = data.stockId) with
  | none => .error ⟨"Stock item no encontrado", none⟩
  | some si =>
    let newQuantity :=
      match operation with
      | .SUBTRACT => si.quantity - data.quantity
      | .ADD => si.quantity + data.quantity
    if newQuantity < 0 then .error ⟨"Stock insuficiente", none⟩
    else
      .ok { db with
        stockItems := db.stockItems.map
          (fun x => if x.id = si.id then { x with quantity := newQuantity } else x) }

namespace BillingItemService

end BillingItemService

/-- The billing-item row persisted by `billingItemModel.create`. -/
def newBillingItemRow (billingItemData : CreateBillingItemDto) (db : BDB) :
    BillingItemRow :=
  { id := "bi" ++ Nat.repr db.nextId
    billingId := billingItemData.billingId
    productVariantId := billingItemData.productVariantId
    name := billingItemData.name
    quantity := billingItemData.quantity
    price := billingItemData.price
    totalPrice := billingItemData.totalPrice }

/-- The store state after `billingItemModel.create` persists the row. -/
def appendBillingItem (billingItemData : CreateBillingItemDto) (db : BDB) : BDB :=
  { db with
    billingItems := db.billingItems ++ [newBillingItemRow billingItemData db]
    nextId := db.nextId + 1 }

namespace BillingItemService

/-- `BillingItemService.create` (product-category/controller.ts lines
107–133): persist the line item in the caller's transaction and, when
`deductFromStock`, invoke the ledger with `StockOperation.SUBTRACT` for the
item's quantity. -/
def create (billingItemData : CreateBillingItemDto) (deductFromStock : Bool)
    (db : BDB) : Except Err (BillingItemRow × BDB) :=
  if ¬ deductFromStock then
    .ok (newBillingItemRow billingItemData db, appendBillingItem billingItemData db)
  else
    match stockItemUpdateQuantity billingItemData .SUBTRACT
        (appendBillingItem billingItemData db) with
    | .error e => .error e
    | .ok db2 => .ok (newBillingItemRow billingItemData db, db2)

/-- `BillingItemService.cancel` (product-category/controller.ts lines
135–154): restore stock by applying `StockOperation.ADD` with the item's
quantity, against the supplied `stockId`. -/
def cancel (billingItemData : CreateBillingItemDto) (stockId : String)
    (db : BDB) : Except Err BDB :=
  stockItemUpdateQuantity { billingItemData with stockId := stockId } .ADD db

end BillingItemService

/-- Quantity on hand of the stock-item row for (variant, stock), read the
same way the ledger locates it. -/
def qtyAt (db : BDB) (productVariantId stockId : String) : Option Int :=
  (db.stockItems.find?
    (fun si => si.productVariantId = productVariantId ∧ si.stockId = stockId)).map
    (fun si => si.quantity)

/-! ## Monthly-sales aggregation (`BillingItemService.getMonthlySales`) and
the §4.3 total rule -/

/-- SQL `NULLIF(a, b)`: `NULL` when the operands are equal, else `a`. -/
def nullif (a b : ℚ) : Option ℚ := if a = b then none else some a

/-- The per-row `CASE` expression inside the monthly-sales `SUM`
(product-category/controller.ts lines 174–186), with SQL `NULL` as `none`:
`discount / NULLIF(subtotal, 0)` is `NULL` when the subtotal is zero, and
`NULL` propagates through the arithmetic. -/
def monthlySalesCase (discountType : Option DiscountType)
    (discount subtotal : ℚ) (totalPrice : ℚ) : Option ℚ :=
  match discountType with
  | some .PERCENTAGE => some (totalPrice * (1 - discount / 100))
  | some .FIXED =>
    match nullif subtotal 0 with
    | none => none
    | some s => some (totalPrice * (1 - discount / s))
  | none => some totalPrice

/-- SQL aggregate `SUM`: `NULL` inputs are skipped; an empty or all-`NULL`
group sums to `NULL`. -/
def sqlSum (l : List (Option ℚ)) : Option ℚ :=
  match l.filterMap id with
  | [] => none
  | xs => some xs.sum

/-- JS `Number(totalSales)` as applied at controller.ts line 237: SQL `NULL`
becomes `0`. -/
def jsNumber (o : Option ℚ) : ℚ := o.getD 0

/-- Modelled from the spec: the §4.3 discount rule (the document-total
computation itself lives in billing/quote model code absent from the
snapshot).  `discounted = base * (1 - discount/100)` for `PERCENTAGE`,
`base * (1 - discount/base)` for `FIXED` guarded by `base == 0 →
discounted = base`, else `base`. -/
def discountedSpec (base : ℚ) (discountType : Option DiscountType)
    (discount : ℚ) : ℚ :=
  match discountType with
  | some .PERCENTAGE => base * (1 - discount / 100)
  | some .FIXED => if base = 0 then base else base * (1 - discount / base)
  | none => base

/-- Modelled from the spec: the §4.3 document-total rule
`total = discounted + shipping`. -/
def totalSpec (base : ℚ) (discountType : Option DiscountType)
    (discount shipping : ℚ) : ℚ :=
  discountedSpec base discountType discount + shipping

/-- Whether `QuoteService.create` committed (returned the 201 object). -/
def CreateOutcome.isCreated : CreateOutcome → Bool
  | .created .. => true
  | _ => false

/-- Whether `QuoteService.update` committed (returned the 200 object). -/
def UpdateOutcome.isUpdated : UpdateOutcome → Bool
  | .updated .. => true
  | _ => false

/-- HTTP status carried by a `QuoteService.create` outcome (`none` for a
thrown error, whose status the error middleware chooses). -/
def createStatus : CreateOutcome → Option Nat
  | .created .. => some 201
  | .badRequest _ => some 400
  | .thrown _ => none

/-! ## Preservation lemmas for the transaction bodies -/

theorem customerServiceCreate_ok (env : Env) (c : CreateCustomerDto) (db : DB)
    (cust : Customer) (db' : DB)
    (h : customerServiceCreate env c db = .ok (cust, db')) :
    db'.shops = db.shops ∧ db'.quotes = db.quotes ∧
      db'.quoteItems = db.quoteItems ∧
      db'.customers = db.customers ++ [cust] ∧ cust.id = freshId db := by
  unfold customerServiceCreate at h
  cases henv : env.customerCreateErr with
  | some e => rw [henv] at h; exact absurd h (by simp)
  | none => rw [henv] at h; simp at h; simp [← h.1, ← h.2]

theorem customerServiceUpdate_ok (env : Env) (c : CreateCustomerDto) (db : DB)
    (res : Option Customer) (db' : DB)
    (h : customerServiceUpdate env c db = .ok (res, db')) :
    db'.shops = db.shops ∧ db'.quotes = db.quotes ∧
      db'.quoteItems = db.quoteItems ∧
      db'.customers.map (fun x => x.id) = db.customers.map (fun x => x.id) := by
  unfold customerServiceUpdate at h
  cases henv : env.customerUpdateErr with
  | some e => rw [henv] at h; exact absurd h (by simp)
  | none =>
    rw [henv] at h
    cases hf : db.customers.find? (fun cu => cu.personId = c.personId.getD "") with
    | none => rw [hf] at h; simp at h; simp [← h.2]
    | some cu =>
      rw [hf] at h; simp at h
      refine ⟨by simp [← h.2], by simp [← h.2], by simp [← h.2], ?_⟩
      rw [← h.2]
      simp only [List.map_map]
      refine List.map_congr_left (fun x _ => ?_)
      by_cases hx : x.id = cu.id <;> simp [hx]

theorem resolveCustomer_ok (env : Env) (c : CreateCustomerDto) (db : DB)
    (cid : Option String) (db' : DB)
    (h : resolveCustomer env c db = .ok (cid, db')) :
    db'.shops = db.shops ∧ db'.quotes = db.quotes ∧ db'.quoteItems = db.quoteItems := by
  unfold resolveCustomer at h
  by_cases h1 : optTruthy c.fullName ∧ ¬ optTruthy c.customerId
  · rw [if_pos h1] at h
    cases hc : customerServiceCreate env c db with
    | error e => rw [hc] at h; exact absurd h (by simp)
    | ok p =>
      rw [hc] at h; simp at h
      have := customerServiceCreate_ok env c db p.1 p.2 (by rw [hc])
      rw [← h.2]
      exact ⟨this.1, this.2.1, this.2.2.1⟩
  · rw [if_neg h1] at h
    by_cases h2 : optTruthy c.personId = true
    · rw [if_pos h2] at h
      cases hc : customerServiceUpdate env c db with
      | error e => rw [hc] at h; exact absurd h (by simp)
      | ok p =>
        rw [hc] at h; simp at h
        have := customerServiceUpdate_ok env c db p.1 p.2 (by rw [hc])
        rw [← h.2]
        exact ⟨this.1, this.2.1, this.2.2.1⟩
    · rw [if_neg h2] at h
      simp at h
      simp [← h.2]

theorem quoteItemServiceCreate_ok (env : Env) (idx : Nat) (item : ItemDto)
    (qid : String) (db db' : DB)
    (h : quoteItemServiceCreate env idx item qid db = .ok db') :
    db'.shops = db.shops ∧ db'.quotes = db.quotes ∧
      db'.nextId = db.nextId + 1 ∧ db'.customers = db.customers := by
  unfold quoteItemServiceCreate at h
  by_cases hf : env.itemFailAt = some idx
  · rw [if_pos hf] at h; exact absurd h (by simp)
  · rw [if_neg hf] at h
    simp only [Except.ok.injEq] at h
    subst h
    exact ⟨rfl, rfl, rfl, rfl⟩

theorem insertItems_ok (env : Env) (qid : String) (items : List ItemDto)
    (idx : Nat) (db db' : DB)
    (h : insertItems env qid items idx db = .ok db') :
    db'.shops = db.shops ∧ db'.quotes = db.quotes ∧ db'.customers = db.customers := by
  induction items generalizing idx db with
  | nil =>
    unfold insertItems at h
    simp only [Except.ok.injEq] at h
    subst h
    exact ⟨rfl, rfl, rfl⟩
  | cons item rest ih =>
    unfold insertItems at h
    cases hc : quoteItemServiceCreate env idx item qid db with
    | error e => rw [hc] at h; exact absurd h (by simp)
    | ok dbMid =>
      rw [hc] at h
      have hmid := quoteItemServiceCreate_ok env idx item qid db dbMid hc
      have := ih (idx + 1) dbMid h
      exact ⟨this.1.trans hmid.1, this.2.1.trans hmid.2.1, this.2.2.trans hmid.2.2.2⟩

theorem createBody_ok (env : Env) (quoteData : CreateQuoteDto)
    (customerData : CreateCustomerDto) (db : DB) (o : CreateOutcome) (db' : DB)
    (h : createBody env quoteData customerData db = .ok (o, db')) :
    o.isCreated = true ∨
      (o = .badRequest "Parece que la tienda no existe!" ∧ db' = db) := by
  unfold createBody at h
  by_cases hlen : quoteData.items.length = 0
  · rw [if_pos hlen] at h; exact absurd h (by simp)
  · rw [if_neg hlen] at h
    cases hr : resolveCustomer env customerData db with
    | error e => rw [hr] at h; exact absurd h (by simp)
    | ok p =>
      obtain ⟨cid, db1⟩ := p
      rw [hr] at h
      dsimp only at h
      cases hs : db1.shops.find? (fun s => s.slug = quoteData.shopSlug) with
      | none =>
        rw [hs] at h
        simp only [Except.ok.injEq, Prod.mk.injEq] at h
        exact Or.inr ⟨h.1.symm, h.2.symm⟩
      | some shop =>
        rw [hs] at h
        dsimp only at h
        cases henv : env.saveErr with
        | some e => rw [henv] at h; exact absurd h (by simp)
        | none =>
          rw [henv] at h
          dsimp only at h
          cases hins : insertItems env (buildQuote quoteData cid shop db1).id
              quoteData.items 0
              { db1 with
                quotes := db1.quotes ++ [buildQuote quoteData cid shop db1]
                nextId := db1.nextId + 1 } with
          | error e => rw [hins] at h; exact absurd h (by simp)
          | ok db3 =>
            rw [hins] at h
            simp only [Except.ok.injEq, Prod.mk.injEq] at h
            rw [← h.1]
            exact Or.inl rfl

theorem updateBody_ok (env : Env) (quoteData : UpdateQuoteDto)
    (customerData : CreateCustomerDto) (db : DB) (o : UpdateOutcome) (db' : DB)
    (h : updateBody env quoteData customerData db = .ok (o, db')) :
    o.isUpdated = true := by
  unfold updateBody at h
  cases hcu : (if optTruthy customerData.personId then
          match customerServiceUpdate env customerData db with
          | .error e => .error e
          | .ok (customerInfo, db1) =>
            if customerInfo = none then
              .error (⟨"Cliente no encontrado", none⟩ : Err)
            else .ok db1
        else .ok db : Except Err DB) with
  | error e => rw [hcu] at h; exact absurd h (by simp)
  | ok db1 =>
    rw [hcu] at h
    dsimp only at h
    cases hf : db1.quotes.find? (fun qu => qu.id = quoteData.id) with
    | none => rw [hf] at h; exact absurd h (by simp)
    | some quoteToUpdate =>
      rw [hf] at h
      dsimp only at h
      cases henv : env.quoteUpdateErr with
      | some e => rw [henv] at h; exact absurd h (by simp)
      | none =>
        rw [henv] at h
        dsimp only at h
        by_cases hlen : quoteData.items.length > 0
        · rw [if_pos hlen] at h
          cases hup : quoteItemServiceUpdateItems env quoteData.items quoteData.id
              { db1 with
                quotes := db1.quotes.map
                  (fun x => if x.id = quoteToUpdate.id then
                    applyQuoteUpdate quoteToUpdate quoteData customerData else x) } with
          | error e => rw [hup] at h; exact absurd h (by simp)
          | ok db3 =>
            rw [hup] at h
            simp only [Except.ok.injEq, Prod.mk.injEq] at h
            rw [← h.1]
            rfl
        · rw [if_neg hlen] at h; exact absurd h (by simp)

/-- C1: creating a quote with an empty item list throws the validation
error before any write, the transaction is rolled back, and the committed
state — document rows, line items, and customer rows included — is exactly
the pre-call state. -/
theorem create_empty_items_rejected_no_writes (env : Env)
    (quoteData : CreateQuoteDto) (customerData : CreateCustomerDto) (db : DB)
    (h : quoteData.items = []) :
    QuoteService.create env quoteData customerData db =
      (.thrown ⟨"Es necesario al menos 1 item para crear una cotización", none⟩, db) := by
  unfold QuoteService.create createBody
  simp [h]

/-- Witness for C1 at a concrete request against a concrete store. -/
theorem create_empty_items_rejected_no_writes_witness :
    QuoteService.create {} ⟨[], "PENDING", none, 0, 0, "candelaria", "u1"⟩
        ⟨none, none, none⟩ ⟨[⟨"s1", "candelaria", "COP"⟩], [], [], [], 0⟩ =
      (.thrown ⟨"Es necesario al menos 1 item para crear una cotización", none⟩,
        ⟨[⟨"s1", "candelaria", "COP"⟩], [], [], [], 0⟩) :=
  create_empty_items_rejected_no_writes {} _ _ _ rfl

/-- C3: whenever `QuoteService.create` or `QuoteService.update` does not
commit its 201/200 success object, the committed database is exactly the
pre-call state — every write of the failed call (customer, document header,
line items) is rolled back before the outcome reaches the caller, for every
fault-injection point. -/
theorem quote_workflow_rollback_on_failure :
    (∀ (env : Env) (quoteData : CreateQuoteDto)
       (customerData : CreateCustomerDto) (db : DB),
       (QuoteService.create env quoteData customerData db).1.isCreated = false →
       (QuoteService.create env quoteData customerData db).2 = db) ∧
    (∀ (env : Env) (quoteData : UpdateQuoteDto)
       (customerData : CreateCustomerDto) (db : DB),
       (QuoteService.update env quoteData customerData db).1.isUpdated = false →
       (QuoteService.update env quoteData customerData db).2 = db) := by
  constructor
  · intro env quoteData customerData db h
    unfold QuoteService.create at h ⊢
    cases hb : createBody env quoteData customerData db with
    | error e => simp
    | ok p =>
      obtain ⟨o, db'⟩ := p
      rw [hb] at h
      rcases createBody_ok env quoteData customerData db o db' hb with hc | hc
      · rw [hc] at h; exact absurd h (by simp)
      · simpa using hc.2
  · intro env quoteData customerData db h
    unfold QuoteService.update at h ⊢
    cases hb : updateBody env quoteData customerData db with
    | error e => simp
    | ok p =>
      obtain ⟨o, db'⟩ := p
      rw [hb] at h
      have hc := updateBody_ok env quoteData customerData db o db' hb
      rw [hc] at h
      exact absurd h (by simp)

/-- Witness for C3: a create whose item insertion is made to fail, and an
update against a missing document, both leave the store untouched. -/
theorem quote_workflow_rollback_on_failure_witness :
    ((QuoteService.create { itemFailAt := some 0 }
        ⟨[⟨"pv1", "Mat", 2, 100, 200⟩], "PENDING", none, 0, 0, "candelaria", "u1"⟩
        ⟨none, some "Bob", none⟩
        ⟨[⟨"s1", "candelaria", "COP"⟩], [], [], [], 0⟩).1.isCreated = false ∧
      (QuoteService.create { itemFailAt := some 0 }
        ⟨[⟨"pv1", "Mat", 2, 100, 200⟩], "PENDING", none, 0, 0, "candelaria", "u1"⟩
        ⟨none, some "Bob", none⟩
        ⟨[⟨"s1", "candelaria", "COP"⟩], [], [], [], 0⟩).2 =
        ⟨[⟨"s1", "candelaria", "COP"⟩], [], [], [], 0⟩) ∧
    ((QuoteService.update {} ⟨"q9", [⟨"pv1", "Mat", 1, 50, 50⟩], none, none, none, none, none⟩
        ⟨none, none, none⟩ ⟨[], [], [], [], 0⟩).1.isUpdated = false ∧
      (QuoteService.update {} ⟨"q9", [⟨"pv1", "Mat", 1, 50, 50⟩], none, none, none, none, none⟩
        ⟨none, none, none⟩ ⟨[], [], [], [], 0⟩).2 = ⟨[], [], [], [], 0⟩) :=
  ⟨⟨by decide,
     quote_workflow_rollback_on_failure.1 { itemFailAt := some 0 } _ _ _ (by decide)⟩,
   ⟨by decide,
     quote_workflow_rollback_on_failure.2 {} _ _ _ (by decide)⟩⟩

theorem insertItemRows_quotes (qid : String) (items : List ItemDto) (db : DB) :
    (insertItemRows qid items db).quotes = db.quotes ∧
      (insertItemRows qid items db).shops = db.shops ∧
      (insertItemRows qid items db).customers = db.customers := by
  induction items generalizing db with
  | nil => exact ⟨rfl, rfl, rfl⟩
  | cons item rest ih => exact (ih _)

theorem quoteItemServiceUpdateItems_ok (env : Env) (items : List ItemDto)
    (qid : String) (db db' : DB)
    (h : quoteItemServiceUpdateItems env items qid db = .ok db') :
    db'.quotes = db.quotes ∧ db'.shops = db.shops ∧ db'.customers = db.customers := by
  unfold quoteItemServiceUpdateItems at h
  cases henv : env.updateItemsErr with
  | some e => rw [henv] at h; exact absurd h (by simp)
  | none =>
    rw [henv] at h
    simp only [Except.ok.injEq] at h
    subst h
    exact insertItemRows_quotes qid items _

/-- C8: updating a non-existent document throws the not-found error, and
updating with an empty replacement item list throws the validation error;
in both cases the rollback leaves the stored document set and item set
exactly as before the call. -/
theorem update_notfound_and_empty_items :
    (∀ (env : Env) (quoteData : UpdateQuoteDto) (customerData : CreateCustomerDto)
       (db : DB),
       optTruthy customerData.personId = false →
       db.quotes.find? (fun qu => qu.id = quoteData.id) = none →
       QuoteService.update env quoteData customerData db =
         (.thrown ⟨"Cotización no encontrada", none⟩, db)) ∧
    (∀ (env : Env) (quoteData : UpdateQuoteDto) (customerData : CreateCustomerDto)
       (db : DB) (qu : Quote),
       optTruthy customerData.personId = false →
       env.quoteUpdateErr = none →
       quoteData.items = [] →
       db.quotes.find? (fun x => x.id = quoteData.id) = some qu →
       QuoteService.update env quoteData customerData db =
         (.thrown ⟨"La cotización debe tener al menos 1 item", none⟩, db)) := by
  constructor
  · intro env quoteData customerData db h1 h2
    unfold QuoteService.update updateBody
    rw [if_neg (by simp [h1])]
    dsimp only
    rw [h2]
  · intro env quoteData customerData db qu h1 h2 h3 h4
    unfold QuoteService.update updateBody
    rw [if_neg (by simp [h1])]
    dsimp only
    rw [h4, h2]
    dsimp only
    rw [if_neg (by simp [h3])]

/-- Witness for C8: against a one-document store, an update aimed at a
missing id and an empty-item update of the existing document both throw and
leave the store unchanged. -/
theorem update_notfound_and_empty_items_witness :
    (QuoteService.update {} ⟨"nope", [⟨"pv1", "M", 1, 5, 5⟩], none, none, none, none, none⟩
        ⟨none, none, none⟩
        ⟨[], [], [⟨"q1", none, "s1", "PENDING", "COP", none, 0, 0, "COT-1", "u"⟩], [], 9⟩ =
      (.thrown ⟨"Cotización no encontrada", none⟩,
        ⟨[], [], [⟨"q1", none, "s1", "PENDING", "COP", none, 0, 0, "COT-1", "u"⟩], [], 9⟩)) ∧
    (QuoteService.update {} ⟨"q1", [], none, none, none, none, none⟩
        ⟨none, none, none⟩
        ⟨[], [], [⟨"q1", none, "s1", "PENDING", "COP", none, 0, 0, "COT-1", "u"⟩], [], 9⟩ =
      (.thrown ⟨"La cotización debe tener al menos 1 item", none⟩,
        ⟨[], [], [⟨"q1", none, "s1", "PENDING", "COP", none, 0, 0, "COT-1", "u"⟩], [], 9⟩)) :=
  ⟨update_notfound_and_empty_items.1 {} _ _ _ (by decide) (by decide),
   update_notfound_and_empty_items.2 {} _ _ _
     ⟨"q1", none, "s1", "PENDING", "COP", none, 0, 0, "COT-1", "u"⟩
     (by decide) (by decide) rfl (by decide)⟩

/-- The §3 invariant on stored documents: the discount type is null whenever
the discount amount is zero, and a non-null discount type forces a strictly
positive discount. -/
def discountInvariant (q : Quote) : Prop :=
  (q.discount = 0 → q.discountType = none) ∧ (q.discountType ≠ none → q.discount > 0)

theorem buildQuote_discountInvariant (quoteData : CreateQuoteDto)
    (cid : Option String) (shop : Shop) (db : DB) :
    discountInvariant (buildQuote quoteData cid shop db) := by
  unfold discountInvariant buildQuote
  dsimp only
  by_cases hd : quoteData.discount > 0
  · rw [if_pos hd]
    exact ⟨fun h0 => absurd h0 (by omega), fun _ => hd⟩
  · rw [if_neg hd]
    exact ⟨fun _ => rfl, fun hne => absurd rfl hne⟩

theorem applyQuoteUpdate_discountInvariant (q : Quote)
    (quoteData : UpdateQuoteDto) (customerData : CreateCustomerDto) :
    discountInvariant (applyQuoteUpdate q quoteData customerData) := by
  unfold discountInvariant applyQuoteUpdate
  dsimp only
  by_cases hd : (quoteData.discount.getD 0) > 0
  · rw [if_pos hd]
    exact ⟨fun h0 => absurd h0 (by omega), fun _ => hd⟩
  · rw [if_neg hd]
    exact ⟨fun _ => rfl, fun hne => absurd rfl hne⟩

theorem create_quotes_shape (env : Env) (quoteData : CreateQuoteDto)
    (customerData : CreateCustomerDto) (db : DB) :
    (QuoteService.create env quoteData customerData db).2.quotes = db.quotes ∨
    ∃ cid shop db1, (QuoteService.create env quoteData customerData db).2.quotes =
      db.quotes ++ [buildQuote quoteData cid shop db1] := by
  unfold QuoteService.create createBody
  by_cases hlen : quoteData.items.length = 0
  · rw [if_pos hlen]; exact Or.inl rfl
  · rw [if_neg hlen]
    cases hr : resolveCustomer env customerData db with
    | error e => exact Or.inl rfl
    | ok p =>
      obtain ⟨cid, db1⟩ := p
      have hres := resolveCustomer_ok env customerData db cid db1 hr
      dsimp only
      cases hs : db1.shops.find? (fun s => s.slug = quoteData.shopSlug) with
      | none => exact Or.inl rfl
      | some shop =>
        dsimp only
        cases henv : env.saveErr with
        | some e => exact Or.inl rfl
        | none =>
          dsimp only
          cases hins : insertItems env (buildQuote quoteData cid shop db1).id
              quoteData.items 0
              { db1 with
                quotes := db1.quotes ++ [buildQuote quoteData cid shop db1]
                nextId := db1.nextId + 1 } with
          | error e => exact Or.inl rfl
          | ok db3 =>
            refine Or.inr ⟨cid, shop, db1, ?_⟩
            have h3 := insertItems_ok env (buildQuote quoteData cid shop db1).id
              quoteData.items 0 _ db3 hins
            dsimp only
            rw [h3.2.1]
            simpa using congrArg (fun l => l ++ [buildQuote quoteData cid shop db1]) hres.2.1

theorem update_quotes_shape (env : Env) (quoteData : UpdateQuoteDto)
    (customerData : CreateCustomerDto) (db : DB) :
    (QuoteService.update env quoteData customerData db).2.quotes = db.quotes ∨
    ∃ qu, qu ∈ db.quotes ∧
      (QuoteService.update env quoteData customerData db).2.quotes =
        db.quotes.map (fun x =>
          if x.id = qu.id then applyQuoteUpdate qu quoteData customerData else x) := by
  unfold QuoteService.update updateBody
  cases hcu : (if optTruthy customerData.personId then
          match customerServiceUpdate env customerData db with
          | .error e => .error e
          | .ok (customerInfo, db1) =>
            if customerInfo = none then
              .error (⟨"Cliente no encontrado", none⟩ : Err)
            else .ok db1
        else .ok db : Except Err DB) with
  | error e => exact Or.inl rfl
  | ok db1 =>
    have hdb1 : db1.quotes = db.quotes := by
      by_cases hp : optTruthy customerData.personId = true
      · rw [if_pos hp] at hcu
        cases hc : customerServiceUpdate env customerData db with
        | error e => rw [hc] at hcu; exact absurd hcu (by simp)
        | ok p =>
          obtain ⟨ci, dbm⟩ := p
          rw [hc] at hcu
          dsimp only at hcu
          by_cases hci : ci = none
          · rw [if_pos hci] at hcu; exact absurd hcu (by simp)
          · rw [if_neg hci] at hcu
            simp only [Except.ok.injEq] at hcu
            subst hcu
            exact (customerServiceUpdate_ok env customerData db ci dbm hc).2.1
      · rw [if_neg hp] at hcu
        simp only [Except.ok.injEq] at hcu
        subst hcu
        rfl
    dsimp only
    cases hf : db1.quotes.find? (fun qu => qu.id = quoteData.id) with
    | none => exact Or.inl rfl
    | some quoteToUpdate =>
      dsimp only
      cases henv : env.quoteUpdateErr with
      | some e => exact Or.inl rfl
      | none =>
        dsimp only
        by_cases hlen : quoteData.items.length > 0
        · rw [if_pos hlen]
          cases hup : quoteItemServiceUpdateItems env quoteData.items quoteData.id
              { db1 with
                quotes := db1.quotes.map
                  (fun x => if x.id = quoteToUpdate.id then
                    applyQuoteUpdate quoteToUpdate quoteData customerData else x) } with
          | error e => exact Or.inl rfl
          | ok db3 =>
            refine Or.inr ⟨quoteToUpdate, ?_, ?_⟩
            · have := List.mem_of_find?_eq_some hf
              rwa [hdb1] at this
            · have h3 := quoteItemServiceUpdateItems_ok env quoteData.items quoteData.id _ db3 hup
              dsimp only
              rw [h3.1]
              rw [hdb1]
        · rw [if_neg hlen]; exact Or.inl rfl

/-- C6: both `create` and `update` preserve the invariant that a stored
document's discount type is null whenever its discount amount is zero (and
non-null only when the discount is strictly positive) — the built row nulls
the type unless `discount > 0`, and the header update does the same. -/
theorem discount_type_invariant_preserved :
    (∀ (env : Env) (quoteData : CreateQuoteDto) (customerData : CreateCustomerDto)
       (db : DB),
       (∀ qu ∈ db.quotes, discountInvariant qu) →
       ∀ qu ∈ (QuoteService.create env quoteData customerData db).2.quotes,
         discountInvariant qu) ∧
    (∀ (env : Env) (quoteData : UpdateQuoteDto) (customerData : CreateCustomerDto)
       (db : DB),
       (∀ qu ∈ db.quotes, discountInvariant qu) →
       ∀ qu ∈ (QuoteService.update env quoteData customerData db).2.quotes,
         discountInvariant qu) := by
  constructor
  · intro env quoteData customerData db hinv qu hmem
    rcases create_quotes_shape env quoteData customerData db with hs | ⟨cid, shop, db1, hs⟩
    · rw [hs] at hmem; exact hinv qu hmem
    · rw [hs] at hmem
      rcases List.mem_append.mp hmem with hold | hnew
      · exact hinv qu hold
      · rw [List.mem_singleton.mp hnew]
        exact buildQuote_discountInvariant quoteData cid shop db1
  · intro env quoteData customerData db hinv qu hmem
    rcases update_quotes_shape env quoteData customerData db with hs | ⟨q0, hq0, hs⟩
    · rw [hs] at hmem; exact hinv qu hmem
    · rw [hs] at hmem
      rcases List.mem_map.mp hmem with ⟨x, hx, hxe⟩
      by_cases hid : x.id = q0.id
      · rw [if_pos hid] at hxe
        rw [← hxe]
        exact applyQuoteUpdate_discountInvariant q0 quoteData customerData
      · rw [if_neg hid] at hxe
        rw [← hxe]
        exact hinv x hx

/-- Witness for C6: a create with `discount = 0` but a supplied
`discountType` stores a document row (the one row the call commits) with a
null discount type, satisfying the invariant. -/
theorem discount_type_invariant_preserved_witness :
    discountInvariant ⟨"id0", none, "s1", "PENDING", "COP", none, 0, 3, "COT-0", "u1"⟩ :=
  discount_type_invariant_preserved.1 {}
    ⟨[⟨"pv1", "M", 1, 5, 5⟩], "PENDING", some .PERCENTAGE, 0, 3, "candelaria", "u1"⟩
    ⟨none, none, none⟩
    ⟨[⟨"s1", "candelaria", "COP"⟩], [], [], [], 0⟩
    (by simp) _ (by decide)

theorem resolveCustomer_total (env : Env) (c : CreateCustomerDto) (db : DB)
    (h2 : env.customerCreateErr = none) (h3 : env.customerUpdateErr = none) :
    ∃ cid db1, resolveCustomer env c db = .ok (cid, db1) ∧ db1.shops = db.shops := by
  unfold resolveCustomer
  by_cases h1 : optTruthy c.fullName ∧ ¬ optTruthy c.customerId
  · rw [if_pos h1]
    unfold customerServiceCreate
    rw [h2]
    exact ⟨_, _, rfl, rfl⟩
  · rw [if_neg h1]
    by_cases hp : optTruthy c.personId = true
    · rw [if_pos hp]
      unfold customerServiceUpdate
      rw [h3]
      cases hf : db.customers.find? (fun cu => cu.personId = c.personId.getD "") with
      | none => exact ⟨_, _, rfl, rfl⟩
      | some cu => exact ⟨_, _, rfl, rfl⟩
    · rw [if_neg hp]
      exact ⟨_, _, rfl, rfl⟩

/-- Counterexample to C4 as stated: a create request whose `shopSlug`
matches no shop returns the `{status: 400}` result object, not a
404/NotFound signal. -/
theorem create_missing_shop_is_400_not_404 :
    createStatus (QuoteService.create {}
        ⟨[⟨"pv1", "M", 1, 5, 5⟩], "PENDING", none, 0, 0, "no-such-shop", "u1"⟩
        ⟨none, none, none⟩
        ⟨[⟨"s1", "candelaria", "COP"⟩], [], [], [], 0⟩).1 = some 400 ∧
    createStatus (QuoteService.create {}
        ⟨[⟨"pv1", "M", 1, 5, 5⟩], "PENDING", none, 0, 0, "no-such-shop", "u1"⟩
        ⟨none, none, none⟩
        ⟨[⟨"s1", "candelaria", "COP"⟩], [], [], [], 0⟩).1 ≠ some 404 := by
  constructor
  · rfl
  · decide

/-- C4 (amended): a create request whose `shopSlug` resolves to no shop —
given the preceding item validation passed and the customer step did not
itself fail — returns the 400 `"Parece que la tienda no existe!"` result,
and no document row is committed: the store is exactly the pre-call state. -/
theorem create_missing_shop_returns_400_no_writes (env : Env)
    (quoteData : CreateQuoteDto) (customerData : CreateCustomerDto) (db : DB)
    (h1 : quoteData.items.length ≠ 0)
    (h2 : env.customerCreateErr = none) (h3 : env.customerUpdateErr = none)
    (h4 : ∀ s ∈ db.shops, s.slug ≠ quoteData.shopSlug) :
    QuoteService.create env quoteData customerData db =
      (.badRequest "Parece que la tienda no existe!", db) := by
  unfold QuoteService.create createBody
  rw [if_neg h1]
  obtain ⟨cid, db1, hr, hshops⟩ := resolveCustomer_total env customerData db h2 h3
  rw [hr]
  dsimp only
  have hnone : db1.shops.find? (fun s => s.slug = quoteData.shopSlug) = none := by
    rw [hshops]
    exact List.find?_eq_none.mpr (fun s hs => by simpa using h4 s hs)
  rw [hnone]

/-- Witness for the amended C4 at a concrete request. -/
theorem create_missing_shop_returns_400_no_writes_witness :
    QuoteService.create {}
        ⟨[⟨"pv2", "N", 2, 7, 14⟩], "PENDING", none, 0, 0, "villa", "u2"⟩
        ⟨none, some "Bob", none⟩
        ⟨[⟨"s1", "candelaria", "COP"⟩], [], [], [], 3⟩ =
      (.badRequest "Parece que la tienda no existe!",
        ⟨[⟨"s1", "candelaria", "COP"⟩], [], [], [], 3⟩) :=
  create_missing_shop_returns_400_no_writes {} _ _ _
    (by decide) rfl rfl (by decide)

theorem resolveCustomer_cases (env : Env) (c : CreateCustomerDto) (db : DB)
    (cid : Option String) (db1 : DB)
    (h : resolveCustomer env c db = .ok (cid, db1)) :
    if optTruthy c.fullName ∧ ¬ optTruthy c.customerId then
      ∃ cu, cid = some cu.id ∧ db1.customers = db.customers ++ [cu]
    else cid = c.customerId ∧
      db1.customers.map (fun x => x.id) = db.customers.map (fun x => x.id) := by
  unfold resolveCustomer at h
  by_cases h1 : optTruthy c.fullName ∧ ¬ optTruthy c.customerId
  · rw [if_pos h1] at h
    rw [if_pos h1]
    cases hc : customerServiceCreate env c db with
    | error e => rw [hc] at h; exact absurd h (by simp)
    | ok p =>
      obtain ⟨cust, dbm⟩ := p
      rw [hc] at h
      simp only [Except.ok.injEq, Prod.mk.injEq] at h
      obtain ⟨hcid, hdb⟩ := h
      subst hcid hdb
      exact ⟨cust, rfl, (customerServiceCreate_ok env c db cust _ hc).2.2.2.1⟩
  · rw [if_neg h1] at h
    rw [if_neg h1]
    by_cases hp : optTruthy c.personId = true
    · rw [if_pos hp] at h
      cases hc : customerServiceUpdate env c db with
      | error e => rw [hc] at h; exact absurd h (by simp)
      | ok p =>
        obtain ⟨res, dbm⟩ := p
        rw [hc] at h
        simp only [Except.ok.injEq, Prod.mk.injEq] at h
        obtain ⟨hcid, hdb⟩ := h
        subst hcid hdb
        exact ⟨rfl, (customerServiceUpdate_ok env c db res _ hc).2.2.2⟩
    · rw [if_neg hp] at h
      simp only [Except.ok.injEq, Prod.mk.injEq] at h
      obtain ⟨hcid, hdb⟩ := h
      subst hcid hdb
      exact ⟨rfl, rfl⟩

theorem createBody_success (env : Env) (quoteData : CreateQuoteDto)
    (customerData : CreateCustomerDto) (db : DB) (o : CreateOutcome) (db' : DB)
    (h : createBody env quoteData customerData db = .ok (o, db'))
    (hc : o.isCreated = true) :
    ∃ cid db1 shop,
      resolveCustomer env customerData db = .ok (cid, db1) ∧
      db'.quotes = db.quotes ++ [buildQuote quoteData cid shop db1] ∧
      (buildQuote quoteData cid shop db1).customerId = cid ∧
      db'.customers = db1.customers := by
  unfold createBody at h
  by_cases hlen : quoteData.items.length = 0
  · rw [if_pos hlen] at h; exact absurd h (by simp)
  · rw [if_neg hlen] at h
    cases hr : resolveCustomer env customerData db with
    | error e => rw [hr] at h; exact absurd h (by simp)
    | ok p =>
      obtain ⟨cid, db1⟩ := p
      rw [hr] at h
      dsimp only at h
      cases hs : db1.shops.find? (fun s => s.slug = quoteData.shopSlug) with
      | none =>
        rw [hs] at h
        simp only [Except.ok.injEq, Prod.mk.injEq] at h
        rw [← h.1] at hc
        exact absurd hc (by simp [CreateOutcome.isCreated])
      | some shop =>
        rw [hs] at h
        dsimp only at h
        cases henv : env.saveErr with
        | some e => rw [henv] at h; exact absurd h (by simp)
        | none =>
          rw [henv] at h
          dsimp only at h
          cases hins : insertItems env (buildQuote quoteData cid shop db1).id
              quoteData.items 0
              { db1 with
                quotes := db1.quotes ++ [buildQuote quoteData cid shop db1]
                nextId := db1.nextId + 1 } with
          | error e => rw [hins] at h; exact absurd h (by simp)
          | ok db3 =>
            rw [hins] at h
            simp only [Except.ok.injEq, Prod.mk.injEq] at h
            obtain ⟨-, hdb⟩ := h
            subst hdb
            have h3 := insertItems_ok env (buildQuote quoteData cid shop db1).id
              quoteData.items 0 _ db3 hins
            have hres := resolveCustomer_ok env customerData db cid db1 hr
            refine ⟨cid, db1, shop, rfl, ?_, rfl, by simpa using h3.2.2⟩
            rw [h3.2.1]
            simpa using congrArg
              (fun l => l ++ [buildQuote quoteData cid shop db1]) hres.2.1

/-- C10: on a successful create, the stored document's `customerId` is the
freshly created customer's id exactly when the payload carries a (truthy)
`fullName` and no (truthy) `customerId`; in every other case — including the
personId-only update path — it is the supplied `customerId ?? null` and no
customer row is added, so a customer update is never attached to the new
document. -/
theorem create_customer_attachment (env : Env) (quoteData : CreateQuoteDto)
    (customerData : CreateCustomerDto) (db : DB) (o : CreateOutcome) (db' : DB)
    (h : QuoteService.create env quoteData customerData db = (o, db'))
    (hc : o.isCreated = true) :
    ∃ qr, db'.quotes = db.quotes ++ [qr] ∧
      (if optTruthy customerData.fullName ∧ ¬ optTruthy customerData.customerId then
        ∃ cu, db'.customers = db.customers ++ [cu] ∧ qr.customerId = some cu.id
      else
        qr.customerId = customerData.customerId ∧
          db'.customers.map (fun x => x.id) = db.customers.map (fun x => x.id)) := by
  unfold QuoteService.create at h
  cases hb : createBody env quoteData customerData db with
  | error e =>
    rw [hb] at h
    simp only [Prod.mk.injEq] at h
    rw [← h.1] at hc
    exact absurd hc (by simp [CreateOutcome.isCreated])
  | ok p =>
    obtain ⟨o0, db'0⟩ := p
    rw [hb] at h
    simp only [Prod.mk.injEq] at h
    obtain ⟨ho, hdb⟩ := h
    subst ho hdb
    obtain ⟨cid, db1, shop, hr, hq, hcid, hcust⟩ :=
      createBody_success env quoteData customerData db _ _ hb hc
    refine ⟨buildQuote quoteData cid shop db1, hq, ?_⟩
    have hcases := resolveCustomer_cases env customerData db cid db1 hr
    by_cases h1 : optTruthy customerData.fullName ∧ ¬ optTruthy customerData.customerId
    · rw [if_pos h1] at hcases ⊢
      obtain ⟨cu, hcu, hdbc⟩ := hcases
      exact ⟨cu, by rw [hcust, hdbc], by rw [hcid, hcu]⟩
    · rw [if_neg h1] at hcases ⊢
      exact ⟨by rw [hcid, hcases.1], by rw [hcust, hcases.2]⟩

/-- Witness for C10: a create supplying only a `personId` updates the
existing customer but stores `customerId = null` on the new document. -/
theorem create_customer_attachment_witness :
    ∃ qr, (QuoteService.create {}
        ⟨[⟨"pv1", "M", 1, 5, 5⟩], "PENDING", none, 0, 0, "candelaria", "u1"⟩
        ⟨none, some "Bob", some "p0"⟩
        ⟨[⟨"s1", "candelaria", "COP"⟩], [⟨"c0", "p0", "Ana"⟩], [], [], 0⟩).2.quotes =
      ([] : List Quote) ++ [qr] ∧
      (if optTruthy (some "Bob") ∧ ¬ optTruthy (none : Option String) then
        ∃ cu, (QuoteService.create {}
          ⟨[⟨"pv1", "M", 1, 5, 5⟩], "PENDING", none, 0, 0, "candelaria", "u1"⟩
          ⟨none, some "Bob", some "p0"⟩
          ⟨[⟨"s1", "candelaria", "COP"⟩], [⟨"c0", "p0", "Ana"⟩], [], [], 0⟩).2.customers =
            [⟨"c0", "p0", "Ana"⟩] ++ [cu] ∧ qr.customerId = some cu.id
      else
        qr.customerId = (none : Option String) ∧
          ((QuoteService.create {}
            ⟨[⟨"pv1", "M", 1, 5, 5⟩], "PENDING", none, 0, 0, "candelaria", "u1"⟩
            ⟨none, some "Bob", some "p0"⟩
            ⟨[⟨"s1", "candelaria", "COP"⟩], [⟨"c0", "p0", "Ana"⟩], [], [], 0⟩).2.customers).map
              (fun x => x.id) = [⟨"c0", "p0", "Ana"⟩].map (fun x => Customer.id x)) :=
  create_customer_attachment {}
    ⟨[⟨"pv1", "M", 1, 5, 5⟩], "PENDING", none, 0, 0, "candelaria", "u1"⟩
    ⟨none, some "Bob", some "p0"⟩
    ⟨[⟨"s1", "candelaria", "COP"⟩], [⟨"c0", "p0", "Ana"⟩], [], [], 0⟩
    _ _ rfl (by decide)

/-- Counterexample to C5 as stated: a unique-constraint violation
(`parent.code = '23505'`) thrown while saving the document row in
`QuoteService.create` is re-thrown verbatim — the surfaced error is the
underlying database error itself, not a distinct duplicate-resource
message. -/
theorem quote_create_unique_violation_untranslated :
    QuoteService.create
        { saveErr := some ⟨"llave duplicada viola restricción de unicidad", some "23505"⟩ }
        ⟨[⟨"pv1", "M", 1, 5, 5⟩], "PENDING", none, 0, 0, "candelaria", "u1"⟩
        ⟨none, none, none⟩
        ⟨[⟨"s1", "candelaria", "COP"⟩], [], [], [], 0⟩ =
      (.thrown ⟨"llave duplicada viola restricción de unicidad", some "23505"⟩,
        ⟨[⟨"s1", "candelaria", "COP"⟩], [], [], [], 0⟩) := rfl

/-- C5 (amended): the duplicate-message translation exists only in the user
service: `register` re-throws a `'23505'` failure with its message replaced
by the user-facing duplicate text and re-throws any other failure unchanged,
while document (quote) creation re-throws every store failure — unique
violations included — unchanged after rollback. -/
theorem unique_violation_translation_only_in_user_service :
    (∀ (env : UserEnv) (userData : CreateUserDto) (db : UDB) (e : Err),
       registerBody env userData db = .error e →
       UserService.register env userData db = (.thrown (translate23505 e), db)) ∧
    (∀ e : Err, e.parentCode = some "23505" →
       (translate23505 e).message =
         "Ya existe un usuario con este email o número de documento") ∧
    (∀ e : Err, e.parentCode ≠ some "23505" → translate23505 e = e) ∧
    (∀ (env : Env) (quoteData : CreateQuoteDto) (customerData : CreateCustomerDto)
       (db : DB) (e : Err),
       createBody env quoteData customerData db = .error e →
       QuoteService.create env quoteData customerData db = (.thrown e, db)) := by
  refine ⟨?_, ?_, ?_, ?_⟩
  · intro env userData db e h
    unfold UserService.register
    rw [h]
  · intro e h
    unfold translate23505
    rw [if_pos h]
  · intro e h
    unfold translate23505
    rw [if_neg h]
  · intro env quoteData customerData db e h
    unfold QuoteService.create
    rw [h]

/-- Witness for the amended C5: a `'23505'` during person creation surfaces
from `register` with the duplicate message; an ordinary connection error
surfaces untranslated; the same `'23505'` surfaces verbatim from quote
creation. -/
theorem unique_violation_translation_only_in_user_service_witness :
    (UserService.register
        { personCreateErr := some ⟨"llave duplicada", some "23505"⟩ }
        ⟨"Ana", "123", "r1", "s1", "a@b.c", "pw"⟩ ⟨[], [], 0⟩ =
      (.thrown (translate23505 ⟨"llave duplicada", some "23505"⟩), ⟨[], [], 0⟩)) ∧
    ((translate23505 ⟨"llave duplicada", some "23505"⟩).message =
      "Ya existe un usuario con este email o número de documento") ∧
    (translate23505 ⟨"connection reset", none⟩ = ⟨"connection reset", none⟩) ∧
    (QuoteService.create { saveErr := some ⟨"llave duplicada", some "23505"⟩ }
        ⟨[⟨"pv1", "M", 1, 5, 5⟩], "PENDING", none, 0, 0, "tienda", "u1"⟩
        ⟨none, none, none⟩ ⟨[⟨"s7", "tienda", "USD"⟩], [], [], [], 0⟩ =
      (.thrown ⟨"llave duplicada", some "23505"⟩,
        ⟨[⟨"s7", "tienda", "USD"⟩], [], [], [], 0⟩)) :=
  ⟨unique_violation_translation_only_in_user_service.1
     { personCreateErr := some ⟨"llave duplicada", some "23505"⟩ } _ _ _ rfl,
   unique_violation_translation_only_in_user_service.2.1 _ rfl,
   unique_violation_translation_only_in_user_service.2.2.1 _ (by decide),
   unique_violation_translation_only_in_user_service.2.2.2
     { saveErr := some ⟨"llave duplicada", some "23505"⟩ } _ _ _ _ rfl⟩

/-- C9: the permission-assignment path is the only one that swallows: a
failing `setExtraPermissions` produces the `{status: 500}` result object
(its return type has no thrown case), while the transactional operations —
quote create, quote update, user register — re-throw their store failure to
the caller after rollback. -/
theorem only_set_permissions_swallows_errors :
    (∀ (env : UserEnv) (dto : SetPermissionsDto) (db : UDB) (u : UserRow) (e : Err),
       db.users.find? (fun x => x.id = dto.userId) = some u →
       env.setExtraPermissionsErr = some e →
       UserService.setPermissions env dto db =
         ⟨500, "Error asignando permisos de usuario"⟩) ∧
    (∀ (env : Env) (quoteData : CreateQuoteDto) (customerData : CreateCustomerDto)
       (db : DB) (e : Err),
       createBody env quoteData customerData db = .error e →
       (QuoteService.create env quoteData customerData db).1 = .thrown e) ∧
    (∀ (env : Env) (quoteData : UpdateQuoteDto) (customerData : CreateCustomerDto)
       (db : DB) (e : Err),
       updateBody env quoteData customerData db = .error e →
       (QuoteService.update env quoteData customerData db).1 = .thrown e) ∧
    (∀ (env : UserEnv) (userData : CreateUserDto) (db : UDB) (e : Err),
       registerBody env userData db = .error e →
       (UserService.register env userData db).1 = .thrown (translate23505 e)) := by
  refine ⟨?_, ?_, ?_, ?_⟩
  · intro env dto db u e hu he
    unfold UserService.setPermissions
    rw [hu, he]
  · intro env quoteData customerData db e h
    unfold QuoteService.create
    rw [h]
  · intro env quoteData customerData db e h
    unfold QuoteService.update
    rw [h]
  · intro env userData db e h
    unfold UserService.register
    rw [h]

/-- Witness for C9 at concrete failures of each path. -/
theorem only_set_permissions_swallows_errors_witness :
    (UserService.setPermissions { setExtraPermissionsErr := some ⟨"boom", none⟩ }
        ⟨"u1", ["product"]⟩ ⟨[], [⟨"u1", "p1", "a@b.c", "r1", "s1"⟩], 0⟩ =
      ⟨500, "Error asignando permisos de usuario"⟩) ∧
    ((QuoteService.create { customerCreateErr := some ⟨"boom", none⟩ }
        ⟨[⟨"pv1", "M", 1, 5, 5⟩], "PENDING", none, 0, 0, "tienda", "u1"⟩
        ⟨none, some "Bob", none⟩ ⟨[⟨"s7", "tienda", "USD"⟩], [], [], [], 0⟩).1 =
      .thrown ⟨"boom", none⟩) ∧
    ((QuoteService.update { updateItemsErr := some ⟨"boom2", none⟩ }
        ⟨"q1", [⟨"pv1", "M", 1, 5, 5⟩], none, none, none, none, none⟩
        ⟨none, none, none⟩
        ⟨[], [], [⟨"q1", none, "s1", "PENDING", "COP", none, 0, 0, "COT-1", "u"⟩], [], 9⟩).1 =
      .thrown ⟨"boom2", none⟩) ∧
    ((UserService.register { userCreateErr := some ⟨"boom3", none⟩ }
        ⟨"Ana", "123", "r1", "s1", "a@b.c", "pw"⟩ ⟨[], [], 0⟩).1 =
      .thrown (translate23505 ⟨"boom3", none⟩)) :=
  ⟨only_set_permissions_swallows_errors.1
     { setExtraPermissionsErr := some ⟨"boom", none⟩ } _ _
     ⟨"u1", "p1", "a@b.c", "r1", "s1"⟩ ⟨"boom", none⟩ rfl rfl,
   only_set_permissions_swallows_errors.2.1
     { customerCreateErr := some ⟨"boom", none⟩ } _ _ _ _ rfl,
   only_set_permissions_swallows_errors.2.2.1
     { updateItemsErr := some ⟨"boom2", none⟩ } _ _ _ _ rfl,
   only_set_permissions_swallows_errors.2.2.2
     { userCreateErr := some ⟨"boom3", none⟩ } _ _ _ rfl⟩

theorem filterMap_id_map_some (g : ℚ → ℚ) (l : List ℚ) :
    (l.map (fun t => some (g t))).filterMap id = l.map g := by
  induction l with
  | nil => rfl
  | cons a t ih => simp [ih]

theorem jsNumber_sqlSum_map (g : ℚ → ℚ) (l : List ℚ) :
    jsNumber (sqlSum (l.map (fun t => some (g t)))) = (l.map g).sum := by
  unfold sqlSum jsNumber
  rw [filterMap_id_map_some]
  cases h : l.map g with
  | nil => simp [h]
  | cons a t => simp

theorem sum_map_mul (c : ℚ) (l : List ℚ) :
    (l.map (fun t => t * c)).sum = l.sum * c := by
  induction l with
  | nil => simp
  | cons a t ih => simp [ih, add_mul]

/-- C2: the monthly-sales `SUM(CASE ...)` applies, per document, exactly the
§4.3 discount rule: with `base = subtotal = Σ item.totalPrice`, the
document's summed contribution (after the JS `Number(null) = 0` coercion)
equals `discounted(base, discountType, discount)` — including the
zero-discount case (`ELSE` branch / `1 - 0/100`) and the zero-base `FIXED`
case, where `NULLIF` yields `NULL` rows that sum to the spec's
`discounted = base = 0`; and any total satisfying the spec's write-time rule
decomposes as that discounted value plus shipping. -/
theorem monthly_sales_applies_spec_discount (dt : Option DiscountType)
    (discount shipping subtotal total : ℚ) (itemTotals : List ℚ)
    (hsub : subtotal = itemTotals.sum)
    (htot : total = totalSpec subtotal dt discount shipping) :
    jsNumber (sqlSum (itemTotals.map (monthlySalesCase dt discount subtotal))) =
      discountedSpec subtotal dt discount ∧
    total = discountedSpec subtotal dt discount + shipping := by
  refine ⟨?_, htot⟩
  cases dt with
  | none =>
    have hfun : monthlySalesCase none discount subtotal =
        fun t => some ((fun x => x) t) := rfl
    rw [hfun, jsNumber_sqlSum_map]
    simpa [discountedSpec] using hsub.symm
  | some dty =>
    cases dty with
    | PERCENTAGE =>
      have hfun : monthlySalesCase (some .PERCENTAGE) discount subtotal =
          fun t => some ((fun x => x * (1 - discount / 100)) t) := rfl
      rw [hfun, jsNumber_sqlSum_map]
      show (itemTotals.map (fun t => t * (1 - discount / 100))).sum = _
      rw [sum_map_mul, ← hsub]
      rfl
    | FIXED =>
      by_cases hs0 : subtotal = 0
      · have hfun : monthlySalesCase (some .FIXED) discount subtotal =
            fun _ => (none : Option ℚ) := by
          funext t
          simp [monthlySalesCase, nullif, hs0]
        rw [hfun]
        have hnone : (itemTotals.map (fun _ => (none : Option ℚ))).filterMap id = [] := by
          induction itemTotals with
          | nil => rfl
          | cons a t ih => simp [ih]
        unfold sqlSum jsNumber
        rw [hnone]
        simp [discountedSpec, hs0]
      · have hnul : nullif subtotal 0 = some subtotal := by
          simp [nullif, hs0]
        have hfun : monthlySalesCase (some .FIXED) discount subtotal =
            fun t => some ((fun x => x * (1 - discount / subtotal)) t) := by
          funext t
          simp [monthlySalesCase, hnul]
        rw [hfun, jsNumber_sqlSum_map]
        show (itemTotals.map (fun t => t * (1 - discount / subtotal))).sum = _
        rw [sum_map_mul, ← hsub]
        simp [discountedSpec, hs0]

/-- Witness for C2 at the §8 scenario: one line item of `2 × 100`,
`PERCENTAGE` discount `10`, shipping `5`, total `185`. -/
theorem monthly_sales_applies_spec_discount_witness :
    jsNumber (sqlSum ([(200 : ℚ)].map
        (monthlySalesCase (some .PERCENTAGE) 10 200))) =
      discountedSpec 200 (some .PERCENTAGE) 10 ∧
    (185 : ℚ) = discountedSpec 200 (some .PERCENTAGE) 10 + 5 :=
  monthly_sales_applies_spec_discount (some .PERCENTAGE) 10 5 200 185 [200]
    (by norm_num) (by norm_num [totalSpec, discountedSpec])

theorem find?_map_of_pred_invariant {α : Type} (f : α → α) (p : α → Bool)
    (hf : ∀ x, p (f x) = p x) (l : List α) :
    (l.map f).find? p = (l.find? p).map f := by
  induction l with
  | nil => rfl
  | cons a t ih =>
    by_cases ha : p a = true
    · rw [List.find?_cons_of_pos _ ha, List.map_cons,
        List.find?_cons_of_pos _ (by rw [hf a]; exact ha)]
      rfl
    · rw [List.find?_cons_of_neg _ (by simpa using ha), List.map_cons,
        List.find?_cons_of_neg _ (by rw [hf a]; simpa using ha)]
      exact ih

theorem updateQuantity_subtract_ok (data : CreateBillingItemDto) (db db2 : BDB)
    (h : stockItemUpdateQuantity data .SUBTRACT db = .ok db2) :
    ∃ si, db.stockItems.find?
        (fun x => x.productVariantId = data.productVariantId ∧
          x.stockId = data.stockId) = some si ∧
      ¬ si.quantity - data.quantity < 0 ∧
      db2 = { db with
        stockItems := db.stockItems.map
          (fun x => if x.id = si.id then
            { x with quantity := si.quantity - data.quantity } else x) } := by
  unfold stockItemUpdateQuantity at h
  cases hf : db.stockItems.find?
      (fun x => x.productVariantId = data.productVariantId ∧
        x.stockId = data.stockId) with
  | none => rw [hf] at h; exact absurd h (by simp)
  | some si =>
    rw [hf] at h
    dsimp only at h
    by_cases hneg : si.quantity - data.quantity < 0
    · rw [if_pos hneg] at h; exact absurd h (by simp)
    · rw [if_neg hneg] at h
      simp only [Except.ok.injEq] at h
      exact ⟨si, rfl, hneg, h.symm⟩

theorem qtyAt_update (db : BDB) (pv sid : String) (si : StockItem) (q' : Int)
    (hf : db.stockItems.find?
      (fun x => x.productVariantId = pv ∧ x.stockId = sid) = some si) :
    qtyAt { db with
        stockItems := db.stockItems.map
          (fun x => if x.id = si.id then { x with quantity := q' } else x) }
      pv sid = some q' := by
  unfold qtyAt
  show ((db.stockItems.map _).find? _).map _ = _
  rw [find?_map_of_pred_invariant _ _
    (fun x => by by_cases hx : x.id = si.id <;> simp [hx]) _, hf]
  simp

/-- C7: a billing-item create with deduction enabled that succeeds lowers
the referenced stock item's quantity by exactly the item quantity, and the
matching cancel succeeds and applies the same quantity as a positive delta,
restoring the pre-creation quantity — `cancel` after `create` is the
identity on the stock quantity (billing rows are untouched by the cancel's
stock restoration). -/
theorem billing_create_cancel_restores_stock (data : CreateBillingItemDto)
    (db : BDB) (row : BillingItemRow) (db' : BDB)
    (hq : 0 ≤ data.quantity)
    (h : BillingItemService.create data true db = .ok (row, db')) :
    qtyAt db' data.productVariantId data.stockId =
      (qtyAt db data.productVariantId data.stockId).map
        (fun q => q - data.quantity) ∧
    ∃ db'', BillingItemService.cancel data data.stockId db' = .ok db'' ∧
      qtyAt db'' data.productVariantId data.stockId =
        qtyAt db data.productVariantId data.stockId ∧
      db''.billingItems = db'.billingItems := by
  unfold BillingItemService.create at h
  rw [if_neg (by simp)] at h
  cases hs : stockItemUpdateQuantity data .SUBTRACT (appendBillingItem data db) with
  | error e => rw [hs] at h; exact absurd h (by simp)
  | ok db2 =>
    rw [hs] at h
    simp only [Except.ok.injEq, Prod.mk.injEq] at h
    obtain ⟨-, hdb'⟩ := h
    subst hdb'
    obtain ⟨si, hf, hneg, hdb2⟩ := updateQuantity_subtract_ok data _ db2 hs
    have hfdb : db.stockItems.find?
        (fun x => x.productVariantId = data.productVariantId ∧
          x.stockId = data.stockId) = some si := hf
    have hqdb : qtyAt db data.productVariantId data.stockId = some si.quantity := by
      unfold qtyAt
      rw [hfdb]
      rfl
    subst hdb2
    have hq1 : qtyAt
        { appendBillingItem data db with
          stockItems := (appendBillingItem data db).stockItems.map
            (fun x => if x.id = si.id then
              { x with quantity := si.quantity - data.quantity } else x) }
        data.productVariantId data.stockId = some (si.quantity - data.quantity) :=
      qtyAt_update (appendBillingItem data db) data.productVariantId data.stockId
        si (si.quantity - data.quantity) hf
    refine ⟨by rw [hq1, hqdb]; rfl, ?_⟩
    have hf2 : ({ appendBillingItem data db with
        stockItems := (appendBillingItem data db).stockItems.map
          (fun x => if x.id = si.id then
            { x with quantity := si.quantity - data.quantity } else x) } : BDB).stockItems.find?
        (fun x => x.productVariantId = data.productVariantId ∧
          x.stockId = data.stockId) =
        some { si with quantity := si.quantity - data.quantity } := by
      show ((appendBillingItem data db).stockItems.map _).find? _ = _
      rw [find?_map_of_pred_invariant _ _
        (fun x => by by_cases hx : x.id = si.id <;> simp [hx]) _, hf]
      simp
    unfold BillingItemService.cancel
    have heta : ({ data with stockId := data.stockId } : CreateBillingItemDto) = data := rfl
    rw [heta]
    unfold stockItemUpdateQuantity
    rw [hf2]
    dsimp only
    rw [if_neg (by omega)]
    refine ⟨_, rfl, ?_, rfl⟩
    have := qtyAt_update
      { appendBillingItem data db with
        stockItems := (appendBillingItem data db).stockItems.map
          (fun x => if x.id = si.id then
            { x with quantity := si.quantity - data.quantity } else x) }
      data.productVariantId data.stockId
      { si with quantity := si.quantity - data.quantity }
      (si.quantity - data.quantity + data.quantity) hf2
    rw [this, hqdb]
    congr 1
    omega

/-- Witness for C7: selling 2 units out of 5 leaves 3 on hand, and the
cancel restores 5. -/
theorem billing_create_cancel_restores_stock_witness :
    (0 : Int) ≤ 2 ∧
    (qtyAt ⟨[⟨"bi0", "b1", "pv1", "Mat", 2, 100, 200⟩],
        [⟨"si1", "st1", "pv1", 3⟩], 1⟩ "pv1" "st1" =
      (qtyAt ⟨[], [⟨"si1", "st1", "pv1", 5⟩], 0⟩ "pv1" "st1").map
        (fun q => q - 2) ∧
    ∃ db'', BillingItemService.cancel ⟨"b1", "pv1", "st1", "Mat", 2, 100, 200⟩ "st1"
        ⟨[⟨"bi0", "b1", "pv1", "Mat", 2, 100, 200⟩], [⟨"si1", "st1", "pv1", 3⟩], 1⟩ =
          .ok db'' ∧
      qtyAt db'' "pv1" "st1" = qtyAt ⟨[], [⟨"si1", "st1", "pv1", 5⟩], 0⟩ "pv1" "st1" ∧
      db''.billingItems =
        (⟨[⟨"bi0", "b1", "pv1", "Mat", 2, 100, 200⟩],
          [⟨"si1", "st1", "pv1", 3⟩], 1⟩ : BDB).billingItems) :=
  ⟨by decide,
   billing_create_cancel_restores_stock ⟨"b1", "pv1", "st1", "Mat", 2, 100, 200⟩
     ⟨[], [⟨"si1", "st1", "pv1", 5⟩], 0⟩
     ⟨"bi0", "b1", "pv1", "Mat", 2, 100, 200⟩
     ⟨[⟨"bi0", "b1", "pv1", "Mat", 2, 100, 200⟩], [⟨"si1", "st1", "pv1", 3⟩], 1⟩
     (by decide) rfl⟩

end Manuarte
